import Mathlib

/-!
Shallow embedding of the finance core of the HackUTD-2025 automotive
shopping backend.

Modelling conventions:
* Python `float` values are modelled as exact rationals (`ℚ`); the spec
  mandates double precision, and every counterexample below is chosen away
  from binary-representation and tie-breaking boundaries, so the rational
  model and the float implementation agree on them.
* Python `round(x, 2)` is modelled as decimal round-half-to-even to two
  places (`round2`).
* Python runtime exceptions (`ZeroDivisionError`, `NameError`) are modelled
  by the `Except PyError` monad: `pyDiv` and `pyPow` fail exactly where the
  corresponding Python operation raises.
* Dict-shaped return values of the calculator are modelled as association
  lists `List (String × ℚ)` preserving the source's key names and order;
  integer-valued entries are coerced into `ℚ`.
-/

/-- Runtime errors of the embedded Python code. `invalidTerm` is the typed
error the specification asks for; the source never raises it. -/
inductive PyError where
  | divisionByZero
  | nameError (x : String)
  | invalidTerm
  deriving DecidableEq

deriving instance DecidableEq for Except

set_option allowUnsafeReducibility true in
attribute [semireducible] Rat.add Rat.sub Rat.mul Rat.div Rat.inv Rat.ofScientific

/-- Python division: raises `ZeroDivisionError` on a zero denominator. -/
def pyDiv (a b : ℚ) : Except PyError ℚ :=
  if b = 0 then .error .divisionByZero else .ok (a / b)

/-- Python `base ** e` for an integer exponent: raises `ZeroDivisionError`
when a zero base is raised to a negative power. -/
def pyPow (base : ℚ) (e : ℤ) : Except PyError ℚ :=
  if base = 0 ∧ e < 0 then .error .divisionByZero else .ok (base ^ e)

/-- Round-half-to-even to an integer, the rounding mode of Python `round`. -/
def round_half_even (q : ℚ) : ℤ :=
  let f := ⌊q⌋
  let frac := q - f
  if frac < 1/2 then f
  else if 1/2 < frac then f + 1
  else if f % 2 = 0 then f else f + 1

/-- Python `round(q, 2)`: decimal rounding to two places, ties to even. -/
def round2 (q : ℚ) : ℚ := (round_half_even (q * 100) : ℚ) / 100

namespace FinanceCalculator

/-- `FinanceCalculator.calculate_loan_payment` from
`backend/utils/finance_calculator.py`: amortized loan payment, with the
zero-rate branch, returning the dict
`{"monthly_payment", "total_cost", "total_interest", "loan_term_months",
"loan_amount"}` (snake_case keys, each monetary entry rounded to 2 dp). -/
def calculate_loan_payment (vehicle_price down_payment interest_rate : ℚ)
    (loan_term_months : ℤ := 60) : Except PyError (List (String × ℚ)) := do
  let loan_amount := vehicle_price - down_payment
  let monthly_rate := interest_rate / 12 / 100
  let monthly_payment ←
    if monthly_rate = 0 then
      pyDiv loan_amount (loan_term_months : ℚ)
    else do
      let growth ← pyPow (1 + monthly_rate) loan_term_months
      pyDiv (loan_amount * (monthly_rate * growth)) (growth - 1)
  let total_cost := monthly_payment * (loan_term_months : ℚ)
  let total_interest := total_cost - loan_amount
  pure [("monthly_payment", round2 monthly_payment),
        ("total_cost", round2 total_cost),
        ("total_interest", round2 total_interest),
        ("loan_term_months", (loan_term_months : ℚ)),
        ("loan_amount", round2 loan_amount)]

/-- `FinanceCalculator.calculate_lease_payment` from
`backend/utils/finance_calculator.py`: lease payment decomposition into
monthly depreciation and monthly finance charge; the money factor is taken
directly as an argument. Returns the dict with keys
`{"monthly_payment", "total_lease_cost", "capitalized_cost",
"monthly_depreciation", "monthly_finance_charge", "lease_term_months"}`. -/
def calculate_lease_payment (vehicle_price residual_value money_factor down_payment : ℚ)
    (lease_term_months : ℤ := 36) : Except PyError (List (String × ℚ)) := do
  let capitalized_cost := vehicle_price - down_payment
  let monthly_depreciation ← pyDiv (capitalized_cost - residual_value) (lease_term_months : ℚ)
  let monthly_finance_charge := (capitalized_cost + residual_value) * money_factor
  let monthly_payment := monthly_depreciation + monthly_finance_charge
  let total_cost := monthly_payment * (lease_term_months : ℚ) + down_payment
  pure [("monthly_payment", round2 monthly_payment),
        ("total_lease_cost", round2 total_cost),
        ("capitalized_cost", round2 capitalized_cost),
        ("monthly_depreciation", round2 monthly_depreciation),
        ("monthly_finance_charge", round2 monthly_finance_charge),
        ("lease_term_months", (lease_term_months : ℚ))]

/-- `FinanceCalculator.calculate_affordability` from
`backend/utils/finance_calculator.py`: the 20% rule and the inverted
amortization formula. There is no guard on the sign of `monthly_available`;
whatever it is, the result dict
`{"max_vehicle_price", "monthly_payment_capacity", "max_loan_amount"}`
is returned. -/
def calculate_affordability (monthly_income monthly_expenses down_payment interest_rate : ℚ)
    (loan_term_months : ℤ := 60) : Except PyError (List (String × ℚ)) := do
  let monthly_available := monthly_income * 0.2 - monthly_expenses
  let monthly_rate := interest_rate / 12 / 100
  let max_loan_amount ←
    if monthly_rate = 0 then
      pure (monthly_available * (loan_term_months : ℚ))
    else do
      let growth ← pyPow (1 + monthly_rate) (-loan_term_months)
      let annuity ← pyDiv (1 - growth) monthly_rate
      pure (monthly_available * annuity)
  let max_vehicle_price := max_loan_amount + down_payment
  pure [("max_vehicle_price", round2 max_vehicle_price),
        ("monthly_payment_capacity", round2 monthly_available),
        ("max_loan_amount", round2 max_loan_amount)]

/-- Result dict of `FinanceCalculator.calculate_depreciation`, with the
source's key names as fields (each list holds values already rounded to
2 dp, year 1 first). -/
structure DepreciationResult where
  yearly_values : List ℚ
  yearly_depreciation : List ℚ
  cumulative_depreciation : List ℚ
  deriving DecidableEq

/-- The `for year in range(1, years + 1)` loop of
`FinanceCalculator.calculate_depreciation`, with the loop counter split
into the current `year` and the number of `remaining` iterations;
`current_value` is the carried (unrounded) previous year's value. -/
def dep_go (initial_value annual_depreciation_rate current_value : ℚ)
    (year : ℕ) : ℕ → DepreciationResult
  | 0 => ⟨[], [], []⟩
  | remaining + 1 =>
    let new_value := initial_value * ((1 - annual_depreciation_rate) ^ year)
    let rest := dep_go initial_value annual_depreciation_rate new_value (year + 1) remaining
    ⟨round2 new_value :: rest.yearly_values,
     round2 (current_value - new_value) :: rest.yearly_depreciation,
     round2 (initial_value - new_value) :: rest.cumulative_depreciation⟩

/-- `FinanceCalculator.calculate_depreciation` from
`backend/utils/finance_calculator.py`: compound decay,
`new_value = initial_value * (1 - annual_depreciation_rate) ** year` for
`year = 1 .. years`. -/
def calculate_depreciation (initial_value : ℚ) (years : ℕ)
    (annual_depreciation_rate : ℚ := 0.15) : DepreciationResult :=
  dep_go initial_value annual_depreciation_rate initial_value 1 years

end FinanceCalculator

/-- Name resolution for the embedded scratch module `finance_calculator.py`:
reading a name that is not bound in the local namespace raises `NameError`. -/
def py_check_name (locals : List String) (x : String) : Except PyError Unit :=
  if x ∈ locals then .ok () else .error (.nameError x)

/-- `find_monthly_payment` from the scratch top-level `finance_calculator.py`.
The local namespace binds `model_car`, `amount_desired`, `n_month_estimated`,
`annual_rate`, `p`, `r`, `n` — but both branches read the bare name `P`
(capital), which is unbound, so Python raises `NameError` before any
arithmetic; the continuation after the (always-failing) name check
substitutes `p`'s value for `P` and is dead code. -/
def find_monthly_payment (model_car : String) (amount_desired : ℚ)
    (n_month_estimated : ℤ) (annual_rate : ℚ) : Except PyError ℚ := do
  let p := amount_desired
  let r := annual_rate / 100 / 12
  let n := n_month_estimated
  let locals := ["model_car", "amount_desired", "n_month_estimated", "annual_rate",
                 "p", "r", "n"]
  if r = 0 then do
    py_check_name locals "P"
    let monthly_payment ← pyDiv p (n : ℚ)
    pure (round2 monthly_payment)
  else do
    py_check_name locals "P"
    let growth ← pyPow (1 + r) n
    let monthly_payment ← pyDiv (p * (r * growth)) (growth - 1)
    pure (round2 monthly_payment)

/-- `find_lease_payment` from the scratch top-level `finance_calculator.py`:
derives the money factor internally as `apr / 2400`, then applies the same
lease formula as the backend calculator and rounds to 2 dp. -/
def find_lease_payment (vehicle_price down_payment residual_value : ℚ)
    (term_months : ℤ) (apr : ℚ) : Except PyError ℚ := do
  let capitalized_cost := vehicle_price - down_payment
  let money_factor := apr / 2400
  let dep ← pyDiv (capitalized_cost - residual_value) (term_months : ℚ)
  let monthly_payment := dep + (capitalized_cost + residual_value) * money_factor
  pure (round2 monthly_payment)

/-- The engine sub-record of a vehicle row; only `fuelType` is read by the
match scorer. -/
structure Engine where
  fuelType : String
  deriving DecidableEq

/-- The fields of a vehicle row that `calculate_match_score` in
`backend/api/finance.py` reads. `seatingCapacity` is an optional
integer-like string in the source; `none` models an absent/falsy value,
`some k` a truthy value whose `int(...)` conversion yields `k`. -/
structure Vehicle where
  type : String
  features : List String
  seatingCapacity : Option ℤ
  engine : Engine
  deriving DecidableEq

/-- The fields of `Preferences` (schema `backend/schemas/finance_schemas.py`)
that `calculate_match_score` reads (`primaryUse` is never consumed). -/
structure Preferences where
  vehicleTypes : List String
  mustHaveFeatures : List String
  seatingMinimum : ℤ
  fuelPreference : String
  deriving DecidableEq

/-- Helper for Python's substring operator `needle in hay` on lists of
characters. -/
def list_contains_sub (needle : List Char) : List Char → Bool
  | [] => needle.isEmpty
  | a :: t => needle.isPrefixOf (a :: t) || list_contains_sub needle t

/-- Python's `needle in hay` on strings: substring containment. -/
def py_in_str (needle hay : String) : Bool :=
  list_contains_sub needle.toList hay.toList

/-- Python's `str.lower()`, character by character. -/
def py_lower (s : String) : String := String.mk (s.toList.map Char.toLower)

/-- The running `score` of `calculate_match_score` in
`backend/api/finance.py` just before the final `max(0, min(100, score))`
clamp (the early type-mismatch return is handled in
`calculate_match_score`): 100, minus 10 per missing must-have feature
(Python set difference, hence deduplicated), minus a flat 30 when a present
seating capacity is below `seatingMinimum`, then ±10 for the
case-insensitive fuel-preference substring match. -/
def raw_match_score (vehicle : Vehicle) (preferences : Preferences) : ℚ :=
  let score : ℚ := 100
  let missing_features :=
    preferences.mustHaveFeatures.dedup.filter fun f => !vehicle.features.contains f
  let score := score - (missing_features.length : ℚ) * 10
  let score :=
    match vehicle.seatingCapacity with
    | some capacity =>
      if capacity < preferences.seatingMinimum then score - 30 else score
    | none => score
  if py_in_str (py_lower preferences.fuelPreference) (py_lower vehicle.engine.fuelType) then
    score + 10
  else
    score - 10

/-- `calculate_match_score` from `backend/api/finance.py`: 0 on a vehicle
type mismatch, otherwise the raw score clamped to [0, 100]. -/
def calculate_match_score (vehicle : Vehicle) (preferences : Preferences) : ℚ :=
  if !preferences.vehicleTypes.contains vehicle.type then 0
  else max 0 (min 100 (raw_match_score vehicle preferences))

/-! ### Helper lemmas for the `Except` monad -/

theorem except_error_bind {α β : Type} (e : PyError) (f : α → Except PyError β) :
    (Except.error e >>= f) = Except.error e := rfl

theorem except_ok_bind {α β : Type} (a : α) (f : α → Except PyError β) :
    (Except.ok a >>= f) = f a := rfl

theorem except_pure {α : Type} (a : α) : (pure a : Except PyError α) = Except.ok a := rfl

/-! ### C10: the scratch loan helper always raises `NameError` on `P` -/

/-- C10: for every input, `find_monthly_payment` from the scratch
`finance_calculator.py` fails with an undefined-name error on `P` (bound only
as lowercase `p`) and never returns a value, in both rate branches. -/
theorem find_monthly_payment_always_name_error (model_car : String)
    (amount_desired : ℚ) (n_month_estimated : ℤ) (annual_rate : ℚ) :
    find_monthly_payment model_car amount_desired n_month_estimated annual_rate =
      .error (.nameError "P") := by
  unfold find_monthly_payment
  have hP : py_check_name ["model_car", "amount_desired", "n_month_estimated",
      "annual_rate", "p", "r", "n"] "P" = .error (.nameError "P") := by decide
  dsimp only
  split <;> rw [hP, except_error_bind]

/-! ### C2: a zero loan term crashes with division by zero, not `InvalidTerm` -/

/-- C2 counterexample: at `vehiclePrice = 1000`, `downPayment = 0`,
`interestRate = 0`, `termMonths = 0`, `calculate_loan_payment` raises the
arithmetic division-by-zero exception — it does not fail with the
`InvalidTerm` error the claim describes. -/
theorem calculate_loan_payment_zero_term_cex :
    FinanceCalculator.calculate_loan_payment 1000 0 0 0 = .error .divisionByZero ∧
      (Except.error .divisionByZero :
        Except PyError (List (String × ℚ))) ≠ .error .invalidTerm := by
  constructor
  · decide
  · decide

/-- C2 amended: for every loan input with `termMonths = 0`,
`calculate_loan_payment` raises an arithmetic division-by-zero exception in
both rate branches; there is no `InvalidTerm` guard in the calculator (the
schema-level range check `loanTermMonths ∈ [12, 84]` is the only
protection). -/
theorem calculate_loan_payment_zero_term (vehicle_price down_payment interest_rate : ℚ) :
    FinanceCalculator.calculate_loan_payment vehicle_price down_payment interest_rate 0 =
      .error .divisionByZero := by
  unfold FinanceCalculator.calculate_loan_payment
  dsimp only
  split
  · rw [show (((0 : ℤ) : ℚ)) = 0 from rfl]
    rw [show pyDiv (vehicle_price - down_payment) 0 = .error .divisionByZero from rfl]
    rw [except_error_bind]
  · have hpow : pyPow (1 + interest_rate / 12 / 100) 0 =
        .ok ((1 + interest_rate / 12 / 100) ^ (0 : ℤ)) := by
      unfold pyPow
      rw [if_neg]
      simp
    rw [hpow, except_ok_bind, zpow_zero]
    rw [show pyDiv ((vehicle_price - down_payment) * (interest_rate / 12 / 100 * 1))
        ((1 : ℚ) - 1) = .error .divisionByZero from by
      unfold pyDiv
      rw [if_pos (by norm_num)]]
    rw [except_error_bind]

/-! ### C9: the loan dict has snake_case keys only -/

/-- C9: every successfully returned loan mapping has exactly the keys
`monthly_payment, total_cost, total_interest, loan_term_months, loan_amount`
(in this order), and looking up the camelCase key `"monthlyPayment"` — as the
affordability and quiz endpoints do — yields no value. -/
theorem calculate_loan_payment_keys (vehicle_price down_payment interest_rate : ℚ)
    (loan_term_months : ℤ) (m : List (String × ℚ))
    (h : FinanceCalculator.calculate_loan_payment vehicle_price down_payment
      interest_rate loan_term_months = .ok m) :
    m.map Prod.fst =
      ["monthly_payment", "total_cost", "total_interest", "loan_term_months",
       "loan_amount"] ∧
    m.lookup "monthlyPayment" = none := by
  unfold FinanceCalculator.calculate_loan_payment at h
  dsimp only at h
  unfold pyDiv pyPow at h
  split at h
  · split at h
    · simp only [except_error_bind] at h
      exact absurd h (by simp)
    · rw [except_ok_bind, except_pure] at h
      injection h with h
      subst h
      exact ⟨rfl, by simp [List.lookup]⟩
  · split at h
    · simp only [except_error_bind] at h
      exact absurd h (by simp)
    · rw [except_ok_bind] at h
      split at h
      · simp only [except_error_bind] at h
        exact absurd h (by simp)
      · rw [except_ok_bind, except_pure] at h
        injection h with h
        subst h
        exact ⟨rfl, by simp [List.lookup]⟩

/-- C9 witness: at the spec's worked loan example the returned mapping is
explicit, carries exactly the five snake_case keys, and has no
`"monthlyPayment"` entry. -/
theorem calculate_loan_payment_keys_witness :
    FinanceCalculator.calculate_loan_payment 30000 5000 0 60 =
      .ok [("monthly_payment", 41667/100), ("total_cost", 25000),
           ("total_interest", 0), ("loan_term_months", 60),
           ("loan_amount", 25000)] ∧
    ([("monthly_payment", (41667 : ℚ)/100), ("total_cost", 25000),
      ("total_interest", 0), ("loan_term_months", 60),
      ("loan_amount", 25000)] : List (String × ℚ)).map Prod.fst =
      ["monthly_payment", "total_cost", "total_interest", "loan_term_months",
       "loan_amount"] ∧
    ([("monthly_payment", (41667 : ℚ)/100), ("total_cost", 25000),
      ("total_interest", 0), ("loan_term_months", 60),
      ("loan_amount", 25000)] : List (String × ℚ)).lookup "monthlyPayment" = none := by
  have h : FinanceCalculator.calculate_loan_payment 30000 5000 0 60 =
      .ok [("monthly_payment", 41667/100), ("total_cost", 25000),
           ("total_interest", 0), ("loan_term_months", 60),
           ("loan_amount", 25000)] := by decide
  have hk := calculate_loan_payment_keys 30000 5000 0 60 _ h
  exact ⟨h, hk.1, hk.2⟩

/-! ### C3: the zero-rate loan payment is the straight-line value, rounded -/

/-- C3 counterexample: at `vehiclePrice = 2000`, `downPayment = 1000`,
`annualRatePercent = 0`, `termMonths = 12` (inside the claimed domain), the
returned `monthly_payment` is `83.33`, which is not exactly
`loanAmount / termMonths = 1000 / 12 = 83.3̅`. -/
theorem loan_zero_rate_not_exact_cex :
    (FinanceCalculator.calculate_loan_payment 2000 1000 0 12).map
      (List.lookup "monthly_payment") = .ok (some (8333/100)) ∧
    ((8333 : ℚ)/100) ≠ (2000 - 1000)/12 ∧
    (12 ≤ (12 : ℤ) ∧ (12 : ℤ) ≤ 84) := by
  refine ⟨by decide, by decide, by decide⟩

/-- C3 amended: for every loan input with `annualRatePercent = 0` and
`termMonths ∈ [12, 84]`, the returned `monthly_payment` equals the
straight-line value `loanAmount / termMonths` rounded to 2 decimal places
(so it is exact only when that quotient is a whole number of cents). -/
theorem loan_zero_rate_straight_line (vehicle_price down_payment : ℚ)
    (loan_term_months : ℤ) (h1 : 12 ≤ loan_term_months)
    (h2 : loan_term_months ≤ 84) :
    (FinanceCalculator.calculate_loan_payment vehicle_price down_payment 0
        loan_term_months).map (List.lookup "monthly_payment") =
      .ok (some (round2 ((vehicle_price - down_payment) / (loan_term_months : ℚ)))) := by
  unfold FinanceCalculator.calculate_loan_payment
  dsimp only
  rw [if_pos (by norm_num)]
  have hn : ((loan_term_months : ℚ)) ≠ 0 := by
    exact_mod_cast (by omega : loan_term_months ≠ 0)
  unfold pyDiv
  rw [if_neg hn, except_ok_bind, except_pure]
  simp [Except.map, List.lookup]

/-- C3 witness: the amended statement instantiated at the spec's worked
example, `calculate_loan_payment(30000, 5000, 0, 60)`. -/
theorem loan_zero_rate_straight_line_witness :
    (12 ≤ (60 : ℤ) ∧ (60 : ℤ) ≤ 84) ∧
    (FinanceCalculator.calculate_loan_payment 30000 5000 0 60).map
      (List.lookup "monthly_payment") =
      .ok (some (round2 ((30000 - 5000) / ((60 : ℤ) : ℚ)))) :=
  ⟨⟨by decide, by decide⟩,
   loan_zero_rate_straight_line 30000 5000 60 (by decide) (by decide)⟩

/-! ### C4: lease payment vs. its two rounded components -/

/-- C4 counterexample: a valid lease input (`residualValue < vehiclePrice`,
`termMonths = 24`) where the returned fields give
`monthlyPayment = 0.01` but `monthlyDepreciation + monthlyFinanceCharge =
0.00 + 0.00`: the identity fails for the fields as they appear in the
result, because each is rounded separately. -/
theorem lease_sum_of_rounded_fields_cex :
    (FinanceCalculator.calculate_lease_payment (1000072/1000) 1000 (3/2000072) 0 24).map
      (fun m => (m.lookup "monthly_payment", m.lookup "monthly_depreciation",
                 m.lookup "monthly_finance_charge")) =
      .ok (some (1/100), some 0, some 0) ∧
    ((1 : ℚ)/100) ≠ 0 + 0 ∧
    ((1000 : ℚ) < 1000072/1000 ∧ 24 ≤ (24 : ℤ) ∧ (24 : ℤ) ≤ 48) := by
  refine ⟨by decide, by decide, by decide⟩

/-- C4 amended: for every valid lease input, the returned `monthly_payment`
is the 2-dp rounding of the sum of the *unrounded* monthly depreciation and
monthly finance charge, and the returned component fields are their separate
2-dp roundings — the payment identity holds before rounding, while the
returned (rounded) fields can disagree with it by a cent. -/
theorem lease_payment_is_round_of_sum (vehicle_price residual_value money_factor
    down_payment : ℚ) (lease_term_months : ℤ) (hres : residual_value < vehicle_price)
    (h1 : 24 ≤ lease_term_months) (h2 : lease_term_months ≤ 48) :
    (FinanceCalculator.calculate_lease_payment vehicle_price residual_value
        money_factor down_payment lease_term_months).map
      (fun m => (m.lookup "monthly_payment", m.lookup "monthly_depreciation",
                 m.lookup "monthly_finance_charge")) =
      .ok (some (round2 ((vehicle_price - down_payment - residual_value) /
                    (lease_term_months : ℚ) +
                  (vehicle_price - down_payment + residual_value) * money_factor)),
           some (round2 ((vehicle_price - down_payment - residual_value) /
                    (lease_term_months : ℚ))),
           some (round2 ((vehicle_price - down_payment + residual_value) *
                    money_factor))) := by
  unfold FinanceCalculator.calculate_lease_payment
  dsimp only
  have hn : ((lease_term_months : ℚ)) ≠ 0 := by
    exact_mod_cast (by omega : lease_term_months ≠ 0)
  unfold pyDiv
  rw [if_neg hn, except_ok_bind, except_pure]
  simp [Except.map, List.lookup]

/-- C4 witness: the amended statement instantiated at a representative valid
lease input (price 30000, residual 18000, money factor 0.0025, down payment
2000, 36 months). -/
theorem lease_payment_is_round_of_sum_witness :
    ((18000 : ℚ) < 30000 ∧ 24 ≤ (36 : ℤ) ∧ (36 : ℤ) ≤ 48) ∧
    (FinanceCalculator.calculate_lease_payment 30000 18000 (1/400) 2000 36).map
      (fun m => (m.lookup "monthly_payment", m.lookup "monthly_depreciation",
                 m.lookup "monthly_finance_charge")) =
      .ok (some (round2 ((30000 - 2000 - 18000) / ((36 : ℤ) : ℚ) +
                  (30000 - 2000 + 18000) * (1/400))),
           some (round2 ((30000 - 2000 - 18000) / ((36 : ℤ) : ℚ))),
           some (round2 ((30000 - 2000 + 18000) * (1/400)))) :=
  ⟨⟨by decide, by decide, by decide⟩,
   lease_payment_is_round_of_sum 30000 18000 (1/400) 2000 36 (by decide)
     (by decide) (by decide)⟩

/-! ### C5: the scratch lease helper agrees with the backend lease calculator -/

/-- C5: for all inputs (including a zero term, where both raise the same
division-by-zero error), the scratch `find_lease_payment` — which derives the
money factor internally as `apr / 2400` — returns the same monthly payment as
the backend `calculate_lease_payment` invoked with `moneyFactor = apr / 2400`
(its `monthly_payment` output field). -/
theorem find_lease_payment_refines_calculator (vehicle_price down_payment
    residual_value : ℚ) (term_months : ℤ) (apr : ℚ) :
    (FinanceCalculator.calculate_lease_payment vehicle_price residual_value
        (apr / 2400) down_payment term_months).map (List.lookup "monthly_payment") =
      (find_lease_payment vehicle_price down_payment residual_value term_months
        apr).map some := by
  unfold FinanceCalculator.calculate_lease_payment find_lease_payment pyDiv
  dsimp only
  by_cases hn : ((term_months : ℚ)) = 0
  · rw [if_pos hn]
    rfl
  · rw [if_neg hn]
    simp only [except_ok_bind, except_pure]
    simp [Except.map, List.lookup]

/-! ### C1: negative affordability capacity is passed through, not rejected -/

/-- The unrounded `max_loan_amount` computed by `calculate_affordability`
(both rate branches), used to state what the function actually returns. -/
def max_loan_amount_raw (monthly_available monthly_rate : ℚ) (loan_term_months : ℤ) : ℚ :=
  if monthly_rate = 0 then monthly_available * (loan_term_months : ℚ)
  else monthly_available * ((1 - (1 + monthly_rate) ^ (-loan_term_months)) / monthly_rate)

/-- `round2` never turns a negative quantity into a positive one. -/
theorem round2_nonpos {q : ℚ} (h : q < 0) : round2 q ≤ 0 := by
  unfold round2 round_half_even
  have h100 : q * 100 < 0 := mul_neg_of_neg_of_pos h (by norm_num)
  have hf : ⌊q * 100⌋ ≤ -1 := by
    have : ⌊q * 100⌋ < 0 := Int.floor_lt.mpr (by exact_mod_cast h100)
    omega
  dsimp only
  split_ifs <;> rw [div_nonpos_iff] <;> refine Or.inr ⟨?_, by norm_num⟩ <;>
    norm_cast <;> omega

/-- C1 counterexample: `monthlyIncome = 1000`, `monthlyExpenses = 500` (so
expenses < income but capacity `0.2·1000 − 500 = −300 < 0`), `downPayment =
0`, rate `0`, term `60`: `calculate_affordability` signals no error and
returns `maxVehiclePrice = −18000`, a negative price. -/
theorem affordability_negative_price_cex :
    FinanceCalculator.calculate_affordability 1000 500 0 0 60 =
      .ok [("max_vehicle_price", -18000), ("monthly_payment_capacity", -300),
           ("max_loan_amount", -18000)] ∧
    (-18000 : ℚ) < 0 ∧ (500 : ℚ) < 1000 ∧ (1000 : ℚ) * 0.2 - 500 < 0 := by
  refine ⟨by decide, by decide, by decide, by decide⟩

/-- C1 amended: for every affordability input with
`monthlyExpenses < monthlyIncome` but `0.2·monthlyIncome − monthlyExpenses
< 0` (and a nonnegative rate and schema-valid term),
`calculate_affordability` signals no error at all: it returns the result
dict with `monthly_payment_capacity = round2(capacity) ≤ 0` and
`max_vehicle_price = round2(maxLoanAmount + downPayment)`, which can be
negative — the negative capacity is passed through, not surfaced as an
"unaffordable" condition. -/
theorem affordability_no_unaffordable_error (monthly_income monthly_expenses
    down_payment interest_rate : ℚ) (loan_term_months : ℤ)
    (hexp : monthly_expenses < monthly_income)
    (hcap : monthly_income * 0.2 - monthly_expenses < 0)
    (hr : 0 ≤ interest_rate) (h1 : 12 ≤ loan_term_months)
    (h2 : loan_term_months ≤ 84) :
    FinanceCalculator.calculate_affordability monthly_income monthly_expenses
        down_payment interest_rate loan_term_months =
      .ok [("max_vehicle_price",
              round2 (max_loan_amount_raw (monthly_income * 0.2 - monthly_expenses)
                  (interest_rate / 12 / 100) loan_term_months + down_payment)),
           ("monthly_payment_capacity",
              round2 (monthly_income * 0.2 - monthly_expenses)),
           ("max_loan_amount",
              round2 (max_loan_amount_raw (monthly_income * 0.2 - monthly_expenses)
                  (interest_rate / 12 / 100) loan_term_months))] ∧
    round2 (monthly_income * 0.2 - monthly_expenses) ≤ 0 := by
  refine ⟨?_, round2_nonpos hcap⟩
  unfold FinanceCalculator.calculate_affordability max_loan_amount_raw
  dsimp only
  by_cases hr0 : interest_rate / 12 / 100 = 0
  · simp only [if_pos hr0]
    rw [except_pure, except_ok_bind, except_pure]
  · simp only [if_neg hr0]
    have hbase : (1 : ℚ) + interest_rate / 12 / 100 ≠ 0 := by positivity
    have hpow : pyPow (1 + interest_rate / 12 / 100) (-loan_term_months) =
        .ok ((1 + interest_rate / 12 / 100) ^ (-loan_term_months)) := by
      unfold pyPow
      exact if_neg fun hc => hbase hc.1
    have hdiv : pyDiv (1 - (1 + interest_rate / 12 / 100) ^ (-loan_term_months))
        (interest_rate / 12 / 100) =
        .ok ((1 - (1 + interest_rate / 12 / 100) ^ (-loan_term_months)) /
          (interest_rate / 12 / 100)) := by
      unfold pyDiv
      exact if_neg hr0
    rw [hpow, except_ok_bind, hdiv, except_ok_bind, except_pure, except_ok_bind,
        except_pure]

/-- C1 witness: the amended statement instantiated at income 1000, expenses
500, down payment 0, rate 0, term 60. -/
theorem affordability_no_unaffordable_error_witness :
    ((500 : ℚ) < 1000 ∧ (1000 : ℚ) * 0.2 - 500 < 0 ∧ (0 : ℚ) ≤ 0 ∧
      12 ≤ (60 : ℤ) ∧ (60 : ℤ) ≤ 84) ∧
    (FinanceCalculator.calculate_affordability 1000 500 0 0 60 =
      .ok [("max_vehicle_price",
              round2 (max_loan_amount_raw ((1000 : ℚ) * 0.2 - 500) ((0 : ℚ) / 12 / 100) 60 + 0)),
           ("monthly_payment_capacity", round2 ((1000 : ℚ) * 0.2 - 500)),
           ("max_loan_amount",
              round2 (max_loan_amount_raw ((1000 : ℚ) * 0.2 - 500) ((0 : ℚ) / 12 / 100) 60))] ∧
      round2 ((1000 : ℚ) * 0.2 - 500) ≤ 0) :=
  ⟨⟨by decide, by decide, by decide, by decide, by decide⟩,
   affordability_no_unaffordable_error 1000 500 0 0 60 (by decide) (by decide)
     (by decide) (by decide) (by decide)⟩

/-! ### C7: the match score is always within [0, 100] -/

/-- C7: for every (vehicle, preferences) pair, the score returned by
`calculate_match_score` lies in the interval [0, 100] — it is either the
hard 0 of a type mismatch or the clamp `max 0 (min 100 …)`. -/
theorem calculate_match_score_bounds (vehicle : Vehicle) (preferences : Preferences) :
    0 ≤ calculate_match_score vehicle preferences ∧
      calculate_match_score vehicle preferences ≤ 100 := by
  unfold calculate_match_score
  split
  · exact ⟨le_refl 0, by norm_num⟩
  · constructor
    · exact le_max_left 0 _
    · exact max_le (by norm_num) (min_le_left 100 _)

/-! ### C8: the seating penalty is −30 only while no clamp is active -/

/-- C8 counterexample: a vehicle with seating capacity 4 and a preference
set missing 11 must-have features: with `seatingMinimum = 4` (at capacity)
the score is 0, and raising `seatingMinimum` to 5 (above capacity) leaves
the score at 0 — the lower clamp absorbs the −30, so the score does not
strictly decrease. -/
theorem seating_penalty_clamped_cex :
    calculate_match_score
        ⟨"Trucks", [], some 4, ⟨"Gasoline"⟩⟩
        ⟨["Trucks"], ["f1", "f2", "f3", "f4", "f5", "f6", "f7", "f8", "f9",
          "f10", "f11"], 5, "electric"⟩ =
      calculate_match_score
        ⟨"Trucks", [], some 4, ⟨"Gasoline"⟩⟩
        ⟨["Trucks"], ["f1", "f2", "f3", "f4", "f5", "f6", "f7", "f8", "f9",
          "f10", "f11"], 4, "electric"⟩ ∧
    calculate_match_score
        ⟨"Trucks", [], some 4, ⟨"Gasoline"⟩⟩
        ⟨["Trucks"], ["f1", "f2", "f3", "f4", "f5", "f6", "f7", "f8", "f9",
          "f10", "f11"], 4, "electric"⟩ = 0 ∧
    ((4 : ℤ) ≤ 4 ∧ (4 : ℤ) < 5) := by
  refine ⟨by decide, by decide, by decide, by decide⟩

/-- C8 amended: when the vehicle's type matches, its seating capacity is
present, and `seatingMinimum` is raised from a value at or below the
capacity to one above it, the −30 deduction is applied exactly once to the
pre-clamp score; the *returned* score strictly decreases by exactly 30
provided neither clamp is active (the penalised raw score is ≥ 0 and the
unpenalised raw score is ≤ 100) — otherwise the decrease can be smaller,
down to 0. -/
theorem seating_penalty_exact_without_clamp (v : Vehicle) (p : Preferences)
    (m2 c : ℤ)
    (htype : p.vehicleTypes.contains v.type = true)
    (hcap : v.seatingCapacity = some c)
    (h1 : p.seatingMinimum ≤ c) (h2 : c < m2)
    (hlow : 0 ≤ raw_match_score v { p with seatingMinimum := m2 })
    (hhigh : raw_match_score v p ≤ 100) :
    calculate_match_score v { p with seatingMinimum := m2 } =
      calculate_match_score v p - 30 ∧
    calculate_match_score v { p with seatingMinimum := m2 } <
      calculate_match_score v p := by
  have hraw : raw_match_score v { p with seatingMinimum := m2 } =
      raw_match_score v p - 30 := by
    unfold raw_match_score
    dsimp only
    rw [hcap]
    dsimp only
    rw [if_pos h2, if_neg (not_lt.mpr h1)]
    split_ifs <;> ring
  have h30 : 30 ≤ raw_match_score v p := by
    rw [hraw] at hlow
    linarith
  have hs1 : calculate_match_score v p = raw_match_score v p := by
    unfold calculate_match_score
    rw [htype]
    simp only [Bool.not_true, Bool.false_eq_true, if_false]
    rw [min_eq_right hhigh, max_eq_right (by linarith)]
  have hs2 : calculate_match_score v { p with seatingMinimum := m2 } =
      raw_match_score v p - 30 := by
    unfold calculate_match_score
    rw [show ({ p with seatingMinimum := m2 } : Preferences).vehicleTypes.contains
        v.type = true from htype]
    simp only [Bool.not_true, Bool.false_eq_true, if_false]
    rw [hraw, min_eq_right (by linarith), max_eq_right (by linarith)]
  rw [hs1, hs2]
  exact ⟨rfl, by linarith⟩

/-- C8 witness: the amended statement instantiated at a truck with capacity
5, one matching must-have feature and a mismatched fuel preference
(raw scores 90 and 60, no clamping): raising `seatingMinimum` from 5 to 6
drops the score from 90 to 60. -/
theorem seating_penalty_exact_without_clamp_witness :
    ((⟨["Trucks"], ["nav"], 5, "electric"⟩ : Preferences).vehicleTypes.contains
        (⟨"Trucks", ["nav"], some 5, ⟨"Gasoline"⟩⟩ : Vehicle).type = true ∧
      (⟨"Trucks", ["nav"], some 5, ⟨"Gasoline"⟩⟩ : Vehicle).seatingCapacity = some 5 ∧
      (⟨["Trucks"], ["nav"], 5, "electric"⟩ : Preferences).seatingMinimum ≤ 5 ∧
      (5 : ℤ) < 6) ∧
    calculate_match_score ⟨"Trucks", ["nav"], some 5, ⟨"Gasoline"⟩⟩
        { (⟨["Trucks"], ["nav"], 5, "electric"⟩ : Preferences) with seatingMinimum := 6 } =
      calculate_match_score ⟨"Trucks", ["nav"], some 5, ⟨"Gasoline"⟩⟩
        ⟨["Trucks"], ["nav"], 5, "electric"⟩ - 30 :=
  ⟨⟨by decide, by decide, by decide, by decide⟩,
   (seating_penalty_exact_without_clamp ⟨"Trucks", ["nav"], some 5, ⟨"Gasoline"⟩⟩
     ⟨["Trucks"], ["nav"], 5, "electric"⟩ 6 5 (by decide) (by decide) (by decide)
     (by decide) (by decide) (by decide)).1⟩

/-! ### C6: the depreciation series -/

/-- The unrounded depreciation amount booked for 0-based year index `y`
(calendar year `y + 1`): `value(y) − value(y + 1)` of the pure compound
decay. -/
def raw_yearly_dep (initial rate : ℚ) (y : ℕ) : ℚ :=
  initial * (1 - rate) ^ y - initial * (1 - rate) ^ (y + 1)

/-- Closed form of the depreciation loop: started at calendar year `y + 1`
with the carried value `initial·(1−rate)^y`, it produces the three ranges of
rounded values. -/
theorem dep_go_closed (initial rate : ℚ) :
    ∀ (count y : ℕ) (current : ℚ), current = initial * (1 - rate) ^ y →
      FinanceCalculator.dep_go initial rate current (y + 1) count =
        ⟨(List.range count).map fun i => round2 (initial * (1 - rate) ^ (y + 1 + i)),
         (List.range count).map fun i =>
           round2 (initial * (1 - rate) ^ (y + i) - initial * (1 - rate) ^ (y + 1 + i)),
         (List.range count).map fun i =>
           round2 (initial - initial * (1 - rate) ^ (y + 1 + i))⟩ := by
  intro count
  induction count with
  | zero => intro y current hcur; rfl
  | succ n ih =>
    intro y current hcur
    subst hcur
    rw [FinanceCalculator.dep_go]
    rw [ih (y + 1) (initial * (1 - rate) ^ (y + 1)) rfl]
    simp only [List.range_succ_eq_map, List.map_cons, List.map_map, Function.comp,
               Nat.succ_eq_add_one, FinanceCalculator.DepreciationResult.mk.injEq,
               List.cons.injEq]
    repeat' apply And.intro
    all_goals first
      | (exact List.map_congr_left fun i _ => by
            congr 1 <;> (simp only [Nat.succ_eq_add_one]; ring))
      | (congr 1 <;> ring)

/-- Closed form of `calculate_depreciation`: three parallel ranges, year 1
first, each entry rounded to 2 dp. -/
theorem calculate_depreciation_closed (initial : ℚ) (years : ℕ) (rate : ℚ) :
    FinanceCalculator.calculate_depreciation initial years rate =
      ⟨(List.range years).map fun i => round2 (initial * (1 - rate) ^ (i + 1)),
       (List.range years).map fun i => round2 (raw_yearly_dep initial rate i),
       (List.range years).map fun i =>
         round2 (initial - initial * (1 - rate) ^ (i + 1))⟩ := by
  unfold FinanceCalculator.calculate_depreciation raw_yearly_dep
  rw [dep_go_closed initial rate years 0 initial (by ring)]
  simp only [FinanceCalculator.DepreciationResult.mk.injEq]
  repeat' apply And.intro
  all_goals exact List.map_congr_left fun i _ => by congr 1 <;> ring

/-- C6 counterexample: at `initialValue = 1000`, `years = 1`,
`annualRate = 1/3` (inside the claimed domain) the last `yearly_values`
entry is the rounded `666.67`, which differs from the exact
`initialValue × (1 − annualRate)^years = 2000/3`. -/
theorem depreciation_last_value_not_exact_cex :
    (FinanceCalculator.calculate_depreciation 1000 1 (1/3)).yearly_values.getLast? =
      some (66667/100) ∧
    (66667 : ℚ)/100 ≠ 1000 * (1 - 1/3) ^ 1 ∧
    (1 ≤ 1 ∧ 1 ≤ 10 ∧ (0 : ℚ) ≤ 1/3 ∧ (1/3 : ℚ) ≤ 1) := by
  refine ⟨by decide, by decide, by decide⟩

/-- C6 amended: for every depreciation input with `years ∈ [1,10]` and
`annualRate ∈ [0,1]`, the three returned sequences each have length `years`
and are ordered year 1 first; for every year index the returned
`yearly_depreciation` entry is the 2-dp rounding of the raw depreciation
amount and the returned `cumulative_depreciation` entry is the 2-dp rounding
of the *sum of the raw yearly amounts up to that year* (the sum identity
holds before rounding, not for the rounded entries); the last yearly value
is the 2-dp rounding of `initialValue × (1 − annualRate)^years`. -/
theorem depreciation_series_properties (initial : ℚ) (years : ℕ) (rate : ℚ)
    (h1 : 1 ≤ years) (h2 : years ≤ 10) (hr0 : 0 ≤ rate) (hr1 : rate ≤ 1) :
    ((FinanceCalculator.calculate_depreciation initial years rate).yearly_values.length =
        years ∧
     (FinanceCalculator.calculate_depreciation initial years rate).yearly_depreciation.length =
        years ∧
     (FinanceCalculator.calculate_depreciation initial years rate).cumulative_depreciation.length =
        years) ∧
    (∀ y : ℕ, y < years →
      (FinanceCalculator.calculate_depreciation initial years rate).yearly_depreciation.get? y =
        some (round2 (raw_yearly_dep initial rate y)) ∧
      (FinanceCalculator.calculate_depreciation initial years rate).cumulative_depreciation.get? y =
        some (round2 (∑ j in Finset.range (y + 1), raw_yearly_dep initial rate j))) ∧
    (FinanceCalculator.calculate_depreciation initial years rate).yearly_values.get?
        (years - 1) =
      some (round2 (initial * (1 - rate) ^ years)) := by
  rw [calculate_depreciation_closed]
  refine ⟨⟨by simp, by simp, by simp⟩, ?_, ?_⟩
  · intro y hy
    constructor
    · rw [List.get?_map, List.get?_range hy]
      rfl
    · rw [List.get?_map, List.get?_range hy]
      simp only [Option.map_some']
      congr 1
      simp only [raw_yearly_dep]
      rw [Finset.sum_range_sub' fun j => initial * (1 - rate) ^ j]
      ring
  · have hy : years - 1 < years := by omega
    rw [List.get?_map, List.get?_range hy]
    have hyy : years - 1 + 1 = years := by omega
    simp only [Option.map_some', hyy]

/-- C6 witness: the amended statement instantiated at the spec's worked
depreciation example `calculate_depreciation(20000, 3, 0.15)`. -/
theorem depreciation_series_properties_witness :
    (1 ≤ 3 ∧ 3 ≤ 10 ∧ (0 : ℚ) ≤ 3/20 ∧ (3/20 : ℚ) ≤ 1) ∧
    (((FinanceCalculator.calculate_depreciation 20000 3 (3/20)).yearly_values.length = 3 ∧
      (FinanceCalculator.calculate_depreciation 20000 3 (3/20)).yearly_depreciation.length = 3 ∧
      (FinanceCalculator.calculate_depreciation 20000 3 (3/20)).cumulative_depreciation.length = 3) ∧
     (∀ y : ℕ, y < 3 →
       (FinanceCalculator.calculate_depreciation 20000 3 (3/20)).yearly_depreciation.get? y =
         some (round2 (raw_yearly_dep 20000 (3/20) y)) ∧
       (FinanceCalculator.calculate_depreciation 20000 3 (3/20)).cumulative_depreciation.get? y =
         some (round2 (∑ j in Finset.range (y + 1), raw_yearly_dep 20000 (3/20) j))) ∧
     (FinanceCalculator.calculate_depreciation 20000 3 (3/20)).yearly_values.get? (3 - 1) =
       some (round2 (20000 * (1 - 3/20) ^ 3))) :=
  ⟨⟨by decide, by decide, by decide, by decide⟩,
   depreciation_series_properties 20000 3 (3/20) (by decide) (by decide) (by decide)
     (by decide)⟩
